import Mathlib

/-!
Shallow embedding of the CSV window-normalization logic of
`src/scripts/scrape_market_data.py` (`PolymarketDataScraper.process_downloaded_csv`,
lines 797-916), the one piece of reproducible data logic in the PolyMarketScan
repository, together with the settlement-window bookkeeping of its caller
`src/scripts/daily_collector.py`.

Modelling conventions:
- instants are `Int` nanoseconds since the Unix epoch in UTC (pandas stores
  `datetime64[ns]`);
- a parsed DataFrame is a rectangular table given column-wise: an ordered
  association list from column name to the list of cell values;
- a cell value is either a number (a cell of an `int64`/`float64` column), a
  date-time string already split into its wall-clock reading and optional
  explicit UTC offset, or a string that fails date-time parsing;
- the ambient machine time zone is threaded as an explicit `Int` UTC-offset
  parameter so that (in)dependence of the result on it can be stated.
-/

/-- A cell value of the parsed CSV table. -/
inductive Value where
  /-- A numeric cell (cell of an `int64`/`float64` column). -/
  | num (n : Int)
  /-- A date-time string, split into the nanosecond instant its wall-clock
  components denote when read as UTC, and its explicit UTC offset in minutes
  (`none` when the string carries no offset). -/
  | dt (naiveNs : Int) (offsetMin : Option Int)
  /-- A string on which date-time parsing fails. -/
  | badStr
deriving DecidableEq, Repr

/-- A parsed DataFrame, column-wise: ordered list of (column name, cells). -/
def Table : Type := List (String × List Value)

instance : DecidableEq Table := by
  unfold Table
  infer_instance

/-- `len(df)`: number of rows, read off the first column. -/
def numRows (t : Table) : Nat :=
  match t with
  | [] => 0
  | c :: _ => c.2.length

/-- The column names of the table, in order (`df.columns`). -/
def colNames (t : Table) : List String := t.map Prod.fst

/-- The cells of the named column (`df[name]`), `[]` when absent. -/
def colValues (t : Table) (name : String) : List Value :=
  match t.find? (fun c => c.1 == name) with
  | some c => c.2
  | none => []

/-- Substring test: line 844 `'Timestamp' in timestamp_col` (Python `in` on
strings is a case-sensitive substring test). -/
def containsSub (needle hay : String) : Bool :=
  hay.toList.tails.any (fun t => needle.toList.isPrefixOf t)

/-- Line 828: `timestamp_columns = ['Date (UTC)', 'Timestamp (UTC)', 'timestamp', 'date', 'time']`. -/
def timestamp_columns : List String :=
  ["Date (UTC)", "Timestamp (UTC)", "timestamp", "date", "time"]

/-- Lines 829-834: the first candidate of `timestamp_columns` that is among
`df.columns`, `none` when no candidate is present. -/
def resolveTimestampCol (t : Table) : Option String :=
  timestamp_columns.find? (fun c => (colNames t).contains c)

/-- `df[col].dtype in ['int64', 'float64']`: a CSV column gets a numeric dtype
exactly when every cell of the column parsed as a number. -/
def isNumericDtype (vs : List Value) : Bool :=
  vs.all (fun v => match v with | .num _ => true | _ => false)

/-- The numeric content of a cell of a numeric-dtype column. -/
def getNum (v : Value) : Int :=
  match v with
  | .num n => n
  | _ => 0

/-- `df[col].max()` of a numeric column (nonempty in every reachable call). -/
def maxOf (l : List Int) : Int :=
  match l with
  | [] => 0
  | h :: tl => tl.foldl max h

/-- `pd.to_datetime(value, utc=True)` on one cell: a number is taken as an
epoch in the default unit (nanoseconds); a date-time string with an explicit
offset is converted to UTC; a date-time string without an offset is localized
to UTC as-is (the ambient machine zone is not consulted); an unparseable
string raises, i.e. yields `none`. -/
def toDatetimeUTC (v : Value) : Option Int :=
  match v with
  | .num n => some n
  | .dt naiveNs offsetMin => some (naiveNs - 60000000000 * (offsetMin.getD 0))
  | .badStr => none

/-- Line 852 `pd.to_datetime(df[timestamp_col], utc=True)` over the whole
column: every cell must parse, a single failure raises (yields `none`). -/
def toInstants (vs : List Value) : Option (List Int)  :=
  match vs with
  | [] => some []
  | v :: tl =>
    match toDatetimeUTC v, toInstants tl with
    | some i, some is => some (i :: is)
    | _, _ => none

/-- Lines 843-852: convert the resolved timestamp column to instants.
If the column name contains the (case-sensitive) substring `"Timestamp"` and
the column dtype is numeric, interpret the cells as Unix epochs — as
milliseconds when the column maximum exceeds `1e10`, else as seconds;
otherwise run the generic string conversion `pd.to_datetime(col, utc=True)`. -/
def convertColumn (name : String) (vs : List Value) : Option (List Int) :=
  if containsSub "Timestamp" name && isNumericDtype vs then
    let nums := vs.map getNum
    if maxOf nums > 10000000000 then
      some (nums.map (fun n => n * 1000000))
    else
      some (nums.map (fun n => n * 1000000000))
  else
    toInstants vs

/-- The `target_date` argument: a Python `datetime`. Only its calendar date
(days since the Unix epoch) and its `tzinfo` (UTC offset in minutes, `none`
when naive) matter to `process_downloaded_csv`, since lines 866-867 overwrite
the time of day with 16:00:00. -/
structure PyDatetime where
  days : Int
  tz : Option Int
deriving DecidableEq, Repr

/-- `pd.Timestamp.now().tz` (line 871): `pd.Timestamp.now()` returns a naive
local timestamp, so its `tz` is `None` whatever the machine's zone is. -/
def pdTimestampNowTz (_ambientOffsetMin : Int) : Option Int := none

/-- Line 866: `target_date.replace(hour=16, minute=0, second=0, microsecond=0)`
as a nanosecond instant, given the effective UTC offset of its `tzinfo`. -/
def windowStartNs (d : PyDatetime) (off : Int) : Int :=
  ((d.days * 86400 + 57600) - off * 60) * 1000000000

/-- Line 867: `(target_date + timedelta(days=1)).replace(hour=16, ...)`. -/
def windowEndNs (d : PyDatetime) (off : Int) : Int :=
  (((d.days + 1) * 86400 + 57600) - off * 60) * 1000000000

/-- Line 877 for one row: `datetime >= target_date_start and datetime < target_date_end`. -/
def inWindow (lo hi t : Int) : Bool :=
  decide (lo ≤ t) && decide (t < hi)

/-- Lines 869-877: the boolean row mask. When `target_date` is naive, lines
870-872 replace its `tzinfo` by `pd.Timestamp.now().tz`, which is `None`, so
the bounds stay naive and the comparison of the tz-aware `datetime` column
with a naive bound raises `TypeError` (yields `none`). -/
def filterMask (ambientOffsetMin : Int) (d : PyDatetime) (instants : List Int) :
    Option (List Bool) :=
  match (match d.tz with
         | some o => some o
         | none => pdTimestampNowTz ambientOffsetMin) with
  | none => none
  | some off =>
    some (instants.map (inWindow (windowStartNs d off) (windowEndNs d off)))

/-- `df[mask]` on one column: keep the cells at the positions where the mask
is `true`, in order. -/
def applyMask (mask : List Bool) (vs : List Value) : List Value :=
  match mask, vs with
  | b :: bs, v :: tl => if b then v :: applyMask bs tl else applyMask bs tl
  | _, _ => []

/-- The outcome of `process_downloaded_csv`: either the path of the original,
unmodified input file (every fallback branch), or the path of a freshly
written CSV holding the filtered table. -/
inductive ProcessResult where
  | originalFile
  | processedFile (t : Table)
deriving DecidableEq

/-- Lines 797-916, `process_downloaded_csv(file_path, target_date)` on the
parsed table: empty input, an unresolvable timestamp column, a timestamp
conversion failure, a naive/aware comparison failure, and an empty filtered
result all return the original file path; otherwise the row mask of
lines 869-877 is applied to every column and the result written next to the
input (the helper `datetime` column is dropped again at line 901). -/
def process (ambientOffsetMin : Int) (t : Table) (target : PyDatetime) :
    ProcessResult :=
  if numRows t = 0 then .originalFile
  else
    match resolveTimestampCol t with
    | none => .originalFile
    | some col =>
      match convertColumn col (colValues t col) with
      | none => .originalFile
      | some instants =>
        match filterMask ambientOffsetMin target instants with
        | none => .originalFile
        | some mask =>
          let filtered : Table := t.map (fun c => (c.1, applyMask mask c.2))
          if numRows filtered = 0 then .originalFile
          else .processedFile filtered

/-- Line 899: `processed_name = f"{original_name}_filtered_16h.csv"` where
`original_name = file_path.stem`; the filtered output is written to this
fresh name in the same directory, never to `file_path` itself. -/
def processed_name (stem : String) : String :=
  stem ++ "_filtered_16h.csv"

/-! ## Helper lemmas -/

theorem applyMask_nil (mask : List Bool) : applyMask mask [] = [] := by
  cases mask <;> rfl

theorem applyMask_sublist (mask : List Bool) (vs : List Value) :
    List.Sublist (applyMask mask vs) vs := by
  induction mask generalizing vs with
  | nil => cases vs <;> simp [applyMask]
  | cons b bs ih =>
    cases vs with
    | nil => simp [applyMask]
    | cons v tl =>
      cases b with
      | true => simpa [applyMask] using List.Sublist.cons₂ v (ih tl)
      | false => simpa [applyMask] using List.Sublist.cons v (ih tl)

theorem colValues_map_applyMask (t : Table) (mask : List Bool) (nm : String) :
    colValues (t.map fun c => (c.1, applyMask mask c.2)) nm
      = applyMask mask (colValues t nm) := by
  induction t with
  | nil => simp [colValues, applyMask_nil]
  | cons c tl ih =>
    by_cases h : c.1 = nm
    · simp [colValues, List.find?, h]
    · have hb : (c.1 == nm) = false := beq_false_of_ne h
      simpa [colValues, List.find?, hb] using ih

/-! ## Claims -/

/-- C1: the spec claims that for target date D = 2025-07-29 the retained rows
are those in [2025-07-28T16:00:00Z, 2025-07-29T16:00:00Z), the row at the
window start included. The code instead filters [D 16:00, D+1 16:00): with a
UTC-aware target 2025-07-29, the single row at 2025-07-28T16:00:00Z is
discarded (the original file comes back unprocessed) while a row at the
claimed `window_end` 2025-07-29T16:00:00Z is retained; and with the tz-naive
target its callers actually pass, the aware/naive comparison raises and even
an in-window row set comes back unfiltered. -/
theorem C1_window_shifted_one_day :
    process 0 [("Date (UTC)", [Value.dt 1753718400000000000 (some 0)])]
        ⟨20298, some 0⟩ = .originalFile
    ∧ process 0 [("Date (UTC)", [Value.dt 1753804800000000000 (some 0)])]
        ⟨20298, some 0⟩
        = .processedFile [("Date (UTC)", [Value.dt 1753804800000000000 (some 0)])]
    ∧ process 0 [("Date (UTC)", [Value.dt 1753804800000000000 (some 0)])]
        ⟨20298, none⟩ = .originalFile := by
  refine ⟨by decide, by decide, by decide⟩

/-- C2 counterexample: on rows whose only column is `"foo"` (no timestamp
candidate present), `process_downloaded_csv` does not fail — it falls back to
returning the original, unfiltered input file. -/
theorem C2_counterexample :
    resolveTimestampCol [("foo", [Value.num 1])] = none
    ∧ process 0 [("foo", [Value.num 1])] ⟨20298, some 0⟩
        = ProcessResult.originalFile := by
  refine ⟨by decide, by decide⟩

/-- C2 (amended): when no candidate timestamp column is present the code
reports the condition and returns the original unfiltered file (it raises no
`ColumnNotFoundError`); it never selects a column outside the candidate list,
and any column it does select is genuinely present in the input. -/
theorem C2_no_column_fallback :
    (∀ (a : Int) (t : Table) (d : PyDatetime),
        resolveTimestampCol t = none → process a t d = .originalFile)
    ∧ (∀ (t : Table) (c : String),
        resolveTimestampCol t = some c →
          c ∈ timestamp_columns ∧ c ∈ colNames t) := by
  constructor
  · intro a t d h
    unfold process
    split
    · rfl
    · rw [h]
  · intro t c h
    refine ⟨List.mem_of_find?_eq_some h, ?_⟩
    have hp := List.find?_some h
    simpa [colNames] using hp

/-- C2 witness: the amended claim at the concrete no-candidate input. -/
theorem C2_no_column_fallback_witness :
    process 7 [("foo", [Value.num 1])] ⟨20298, some 0⟩ = .originalFile
    ∧ ("Date (UTC)" ∈ timestamp_columns ∧
        "Date (UTC)" ∈ colNames [("Date (UTC)", [Value.num 1])]) :=
  ⟨C2_no_column_fallback.1 7 _ _ (by decide),
   C2_no_column_fallback.2 [("Date (UTC)", [Value.num 1])] _ (by decide)⟩

/-- C3: column resolution probes `timestamp_columns` in priority order, so any
table containing a `"Date (UTC)"` column resolves to `"Date (UTC)"` (in
particular when a `"timestamp"` column is also present), and a `"Date (UTC)"`
column is always converted by the generic string path
(`pd.to_datetime(col, utc=True)`), never by the numeric-epoch branch. -/
theorem C3_priority_and_string_parse :
    (∀ t : Table, "Date (UTC)" ∈ colNames t →
        resolveTimestampCol t = some "Date (UTC)")
    ∧ (∀ vs : List Value, convertColumn "Date (UTC)" vs = toInstants vs) := by
  constructor
  · intro t h
    unfold resolveTimestampCol timestamp_columns
    exact List.find?_cons_of_pos _ (by simpa [colNames] using h)
  · intro vs
    have h : containsSub "Timestamp" "Date (UTC)" = false := by decide
    simp [convertColumn, h]

/-- C3 witness: a table with both a `"Date (UTC)"` and a `"timestamp"` column
resolves to `"Date (UTC)"`, and its string cell is parsed as a string instant. -/
theorem C3_priority_and_string_parse_witness :
    resolveTimestampCol
        [("timestamp", [Value.num 1722000000]),
         ("Date (UTC)", [Value.dt 1722000000000000000 none])]
      = some "Date (UTC)"
    ∧ convertColumn "Date (UTC)" [Value.dt 1722000000000000000 none]
      = toInstants [Value.dt 1722000000000000000 none] :=
  ⟨C3_priority_and_string_parse.1 _ (by decide),
   C3_priority_and_string_parse.2 _⟩

/-- C4 counterexample: the epoch branch is guarded by the case-sensitive
Python test `'Timestamp' in timestamp_col`, so a numeric column named
`"timestamp"` (a candidate, lowercase) is NOT treated as an epoch column: its
value 1722000000 is handed to `pd.to_datetime` and read as 1722000000
nanoseconds (1.722 s after 1970), not as the 2024-era instant
1722000000·10⁹ ns the claim requires; moreover the ms/s choice is made from
the column maximum, so the value 5 sitting next to 1722000000000 in a
`"Timestamp (UTC)"` column is read as 5 ms, not as 5 s. -/
theorem C4_counterexample :
    convertColumn "timestamp" [Value.num 1722000000] = some [1722000000]
    ∧ (1722000000 : Int) ≠ 1722000000 * 1000000000
    ∧ convertColumn "Timestamp (UTC)" [Value.num 5, Value.num 1722000000000]
        = some [5000000, 1722000000000000000]
    ∧ (5000000 : Int) ≠ 5 * 1000000000 := by
  refine ⟨by decide, by decide, by decide, by decide⟩

/-- C4 (amended): only a numeric column whose name contains the
case-sensitive substring `"Timestamp"` is interpreted as a Unix epoch, and
the unit is chosen once per column — milliseconds when the column maximum
exceeds 10¹⁰, otherwise seconds; under that rule the single values
1722000000 (seconds) and 1722000000000 (milliseconds) in a
`"Timestamp (UTC)"` column still parse to the same 2024-era instant. -/
theorem C4_epoch_unit_rule :
    (∀ (name : String) (vs : List Value),
        containsSub "Timestamp" name = true → isNumericDtype vs = true →
        convertColumn name vs
          = some (if maxOf (vs.map getNum) > 10000000000
                  then (vs.map getNum).map (fun n => n * 1000000)
                  else (vs.map getNum).map (fun n => n * 1000000000)))
    ∧ convertColumn "Timestamp (UTC)" [Value.num 1722000000]
        = some [1722000000000000000]
    ∧ convertColumn "Timestamp (UTC)" [Value.num 1722000000000]
        = some [1722000000000000000] := by
  refine ⟨?_, by decide, by decide⟩
  intro name vs h1 h2
  simp only [convertColumn, h1, h2, Bool.and_self, if_true]
  split <;> simp_all

/-- C4 witness: the amended epoch rule applied to the concrete seconds-scale
singleton column. -/
theorem C4_epoch_unit_rule_witness :
    containsSub "Timestamp" "Timestamp (UTC)" = true
    ∧ isNumericDtype [Value.num 1722000000] = true
    ∧ convertColumn "Timestamp (UTC)" [Value.num 1722000000]
        = some (if maxOf ([Value.num 1722000000].map getNum) > 10000000000
                then ([Value.num 1722000000].map getNum).map (fun n => n * 1000000)
                else ([Value.num 1722000000].map getNum).map (fun n => n * 1000000000)) :=
  ⟨by decide, by decide,
   C4_epoch_unit_rule.1 "Timestamp (UTC)" _ (by decide) (by decide)⟩

/-- C5: a date-time string with no explicit UTC offset is read as UTC
(`pd.to_datetime(..., utc=True)` localizes naive values to UTC), and the
whole of `process_downloaded_csv` is independent of the invoking machine's
local time zone: the ambient offset enters only through
`pd.Timestamp.now().tz`, which is `None` on every machine. -/
theorem C5_naive_strings_are_utc :
    (∀ n : Int, toDatetimeUTC (Value.dt n none) = some n)
    ∧ (∀ (a b : Int) (t : Table) (d : PyDatetime), process a t d = process b t d) := by
  constructor
  · intro n
    simp [toDatetimeUTC]
  · intro a b t d
    rfl

/-- C6 counterexample: `process_downloaded_csv` does no price validation, and
timestamp failures are not row-scoped. With the UTC-aware target 2025-07-29,
a table whose `"Price"` column holds a non-numeric cell keeps that row in the
output (the claim requires it excluded), and a table whose timestamp column
holds one unparseable cell among parseable ones makes the whole conversion
fail, falling back to the original unfiltered file (the claim requires only
that row dropped). -/
theorem C6_counterexample :
    process 0 [("Date (UTC)", [Value.dt 1753804800000000000 (some 0),
                               Value.dt 1753808400000000000 (some 0)]),
               ("Price", [Value.num 50, Value.badStr])] ⟨20298, some 0⟩
      = .processedFile
          [("Date (UTC)", [Value.dt 1753804800000000000 (some 0),
                           Value.dt 1753808400000000000 (some 0)]),
           ("Price", [Value.num 50, Value.badStr])]
    ∧ process 0 [("Date (UTC)", [Value.dt 1753804800000000000 (some 0),
                                 Value.badStr])] ⟨20298, some 0⟩
      = .originalFile := by
  refine ⟨by decide, by decide⟩

/-- C6 (amended): the code never parses prices — rows with missing or
malformed price cells are retained subject only to the window filter (for any
cells `ps` whatever in the `"Price"` column, both rows of the two-row table
below survive unchanged) — and a timestamp parse failure is fatal to the
whole operation rather than row-scoped: whenever conversion of the resolved
timestamp column fails, the original unfiltered file is returned. -/
theorem C6_no_price_validation :
    (∀ (a : Int) (t : Table) (d : PyDatetime) (c : String),
        resolveTimestampCol t = some c →
        convertColumn c (colValues t c) = none →
        process a t d = .originalFile)
    ∧ (∀ ps : List Value, ps.length = 2 →
        process 0 [("Date (UTC)", [Value.dt 1753804800000000000 (some 0),
                                   Value.dt 1753808400000000000 (some 0)]),
                   ("Price", ps)] ⟨20298, some 0⟩
          = .processedFile
              [("Date (UTC)", [Value.dt 1753804800000000000 (some 0),
                               Value.dt 1753808400000000000 (some 0)]),
               ("Price", ps)]) := by
  constructor
  · intro a t d c h1 h2
    unfold process
    split
    · rfl
    · simp only [h1, h2]
  · intro ps hps
    obtain ⟨p, q, rfl⟩ := List.length_eq_two.mp hps
    rfl

/-- C6 witness: the amended claim at the claim's own example shape — a
malformed price cell next to a numeric one, and a one-bad-cell timestamp
column. -/
theorem C6_no_price_validation_witness :
    process 0 [("Date (UTC)", [Value.dt 1753804800000000000 (some 0),
                               Value.badStr])] ⟨20298, some 0⟩ = .originalFile
    ∧ process 0 [("Date (UTC)", [Value.dt 1753804800000000000 (some 0),
                                 Value.dt 1753808400000000000 (some 0)]),
                 ("Price", [Value.num 50, Value.badStr])] ⟨20298, some 0⟩
        = .processedFile
            [("Date (UTC)", [Value.dt 1753804800000000000 (some 0),
                             Value.dt 1753808400000000000 (some 0)]),
             ("Price", [Value.num 50, Value.badStr])] :=
  ⟨C6_no_price_validation.1 0 _ _ "Date (UTC)" (by decide) (by decide),
   C6_no_price_validation.2 [Value.num 50, Value.badStr] (by decide)⟩

/-- C7: the filtered output is the input with a boolean row mask applied, so
every output column is an order-preserving subsequence (sublist) of the
corresponding input column; and on the unsorted in-window instants
`[T3, T1, T2]` the output keeps exactly the original order `[T3, T1, T2]` —
nothing is re-sorted. -/
theorem C7_order_preservation :
    (∀ (a : Int) (t : Table) (d : PyDatetime) (tf : Table),
        process a t d = .processedFile tf →
        ∀ nm : String, List.Sublist (colValues tf nm) (colValues t nm))
    ∧ (∀ (days i3 i1 i2 : Int),
        windowStartNs ⟨days, some 0⟩ 0 ≤ i3 → i3 < windowEndNs ⟨days, some 0⟩ 0 →
        windowStartNs ⟨days, some 0⟩ 0 ≤ i1 → i1 < windowEndNs ⟨days, some 0⟩ 0 →
        windowStartNs ⟨days, some 0⟩ 0 ≤ i2 → i2 < windowEndNs ⟨days, some 0⟩ 0 →
        process 0 [("Date (UTC)", [Value.dt i3 (some 0), Value.dt i1 (some 0),
                                   Value.dt i2 (some 0)])] ⟨days, some 0⟩
          = .processedFile [("Date (UTC)", [Value.dt i3 (some 0),
                                            Value.dt i1 (some 0),
                                            Value.dt i2 (some 0)])]) := by
  constructor
  · intro a t d tf h nm
    unfold process at h
    split at h
    · simp at h
    · split at h
      · simp at h
      · split at h
        · simp at h
        · split at h
          · simp at h
          · dsimp only at h
            split at h
            · simp at h
            · injection h with h'
              rw [← h', colValues_map_applyMask]
              exact applyMask_sublist _ _
  · intro days i3 i1 i2 h3l h3r h1l h1r h2l h2r
    have hc : containsSub "Timestamp" "Date (UTC)" = false := by decide
    simp only [process, numRows, resolveTimestampCol, timestamp_columns, colNames,
      colValues, convertColumn, toInstants, toDatetimeUTC, filterMask,
      pdTimestampNowTz, inWindow, applyMask, List.map, List.find?]
    norm_num [hc, toInstants, toDatetimeUTC, applyMask, inWindow,
      h3l, h3r, h1l, h1r, h2l, h2r]

/-- C7 witness: the sublist fact at a table where one row is filtered out,
and the no-sorting fact at the concrete out-of-order instants
17:00, 16:00, 16:30 of the 2025-07-29 code window. -/
theorem C7_order_preservation_witness :
    List.Sublist
      (colValues [("Date (UTC)", [Value.dt 1753804800000000000 (some 0)])] "Date (UTC)")
      (colValues [("Date (UTC)", [Value.dt 1753804800000000000 (some 0),
                                  Value.dt 1700000000000000000 (some 0)])] "Date (UTC)")
    ∧ process 0 [("Date (UTC)", [Value.dt 1753808400000000000 (some 0),
                                 Value.dt 1753804800000000000 (some 0),
                                 Value.dt 1753806600000000000 (some 0)])] ⟨20298, some 0⟩
        = .processedFile [("Date (UTC)", [Value.dt 1753808400000000000 (some 0),
                                          Value.dt 1753804800000000000 (some 0),
                                          Value.dt 1753806600000000000 (some 0)])] :=
  ⟨C7_order_preservation.1 0 _ ⟨20298, some 0⟩ _ (by decide) "Date (UTC)",
   C7_order_preservation.2 20298 1753808400000000000 1753804800000000000
     1753806600000000000 (by decide) (by decide) (by decide) (by decide)
     (by decide) (by decide)⟩

/-- C8 counterexample: on an empty row set the code does not build a
zero-count result with an empty row sequence — it returns the original
(unprocessed) file, an outcome distinct from every processed result,
including the empty one. -/
theorem C8_counterexample :
    process 0 [("Price", ([] : List Value))] ⟨20298, some 0⟩
      = ProcessResult.originalFile
    ∧ ProcessResult.originalFile ≠ ProcessResult.processedFile [] := by
  refine ⟨by decide, by decide⟩

/-- C8 (amended): for every target date and every table with zero rows,
`process_downloaded_csv` returns the original input file unchanged and never
raises (the embedding is a total function into `ProcessResult`); no count or
coverage record is produced. -/
theorem C8_empty_input :
    ∀ (a : Int) (t : Table) (d : PyDatetime),
      numRows t = 0 → process a t d = .originalFile := by
  intro a t d h
  unfold process
  rw [if_pos h]

/-- C8 witness: the amended claim at the concrete empty table. -/
theorem C8_empty_input_witness :
    process 3 [("Price", ([] : List Value))] ⟨20298, none⟩ = .originalFile :=
  C8_empty_input 3 _ _ (by decide)

/-- Modelled from the spec: `price_delta_percent` of the
`NormalizationResult` (spec §3 and §4.1 `normalize`, step 7). No code in
`src/` computes a price delta — the spec's WindowNormalizer output record is
design-only — so the computation is taken from the spec's words: the delta is
`(last − first) / first × 100` over the first and last elements of the
filtered, order-preserved price sequence, and it is the guarded default
`none` (null) when fewer than two rows were retained or the first price is
zero. -/
def price_delta_percent (prices : List ℚ) : Option ℚ :=
  if prices.length < 2 then none
  else if prices.headD 0 = 0 then none
  else some ((prices.getLastD 0 - prices.headD 0) / prices.headD 0 * 100)

/-- C9: with at least two retained prices and a nonzero first price, the
delta is `(last − first) / first × 100` of the positionally first and last
elements of the filtered sequence; with fewer than two rows or a zero first
price it is the guarded `none`, and no division by the zero first price is
ever performed. -/
theorem C9_price_delta_guard :
    (∀ ps : List ℚ, 2 ≤ ps.length → ps.headD 0 ≠ 0 →
        price_delta_percent ps
          = some ((ps.getLastD 0 - ps.headD 0) / ps.headD 0 * 100))
    ∧ (∀ ps : List ℚ, ps.length < 2 ∨ ps.headD 0 = 0 →
        price_delta_percent ps = none) := by
  constructor
  · intro ps h2 h0
    unfold price_delta_percent
    rw [if_neg (by omega), if_neg h0]
  · intro ps h
    unfold price_delta_percent
    rcases h with h | h
    · rw [if_pos h]
    · by_cases hl : ps.length < 2
      · rw [if_pos hl]
      · rw [if_neg hl, if_pos h]

/-- C9 witness: the delta rule applied to the unsorted three-price sequence
`[4, 1, 2]` (positional first 4 and last 2, not the min/max rows), and the
guard at a zero first price. -/
theorem C9_price_delta_guard_witness :
    price_delta_percent [4, 1, 2]
      = some ((([4, 1, 2] : List ℚ).getLastD 0 - ([4, 1, 2] : List ℚ).headD 0)
                / ([4, 1, 2] : List ℚ).headD 0 * 100)
    ∧ price_delta_percent [0, 5] = none :=
  ⟨C9_price_delta_guard.1 [4, 1, 2] (by decide) (by norm_num),
   C9_price_delta_guard.2 [0, 5] (Or.inr (by norm_num))⟩

/-- C10: `process_downloaded_csv` is total at its interface and falls back to
the original file instead of raising: the result is always either the
original input file or a freshly written processed file; an empty CSV, an
unrecognized timestamp column, a timestamp conversion failure, the
aware/naive comparison `TypeError`, and an empty window result each return
the original file path; and the processed output name
`{stem}_filtered_16h.csv` never collides with the input file's own name
(`stem` plus a possibly-empty dot-led suffix), so the input file is never
overwritten. -/
theorem C10_total_fallback :
    (∀ (a : Int) (t : Table) (d : PyDatetime),
        process a t d = .originalFile ∨ ∃ tf, process a t d = .processedFile tf)
    ∧ (∀ (a : Int) (t : Table) (d : PyDatetime),
        numRows t = 0 → process a t d = .originalFile)
    ∧ (∀ (a : Int) (t : Table) (d : PyDatetime),
        resolveTimestampCol t = none → process a t d = .originalFile)
    ∧ (∀ (a : Int) (t : Table) (d : PyDatetime) (c : String),
        resolveTimestampCol t = some c →
        convertColumn c (colValues t c) = none →
        process a t d = .originalFile)
    ∧ (∀ (a : Int) (t : Table) (d : PyDatetime) (c : String)
          (instants : List Int),
        resolveTimestampCol t = some c →
        convertColumn c (colValues t c) = some instants →
        filterMask a d instants = none →
        process a t d = .originalFile)
    ∧ (∀ (a : Int) (t : Table) (d : PyDatetime) (c : String)
          (instants : List Int) (mask : List Bool),
        resolveTimestampCol t = some c →
        convertColumn c (colValues t c) = some instants →
        filterMask a d instants = some mask →
        numRows (t.map fun col => (col.1, applyMask mask col.2)) = 0 →
        process a t d = .originalFile)
    ∧ (∀ stem suffix : String,
        suffix.data = [] ∨ suffix.data.head? = some '.' →
        processed_name stem ≠ stem ++ suffix) := by
  refine ⟨?_, ?_, ?_, ?_, ?_, ?_, ?_⟩
  · intro a t d
    unfold process
    split
    · exact Or.inl rfl
    · split
      · exact Or.inl rfl
      · split
        · exact Or.inl rfl
        · split
          · exact Or.inl rfl
          · dsimp only
            split
            · exact Or.inl rfl
            · exact Or.inr ⟨_, rfl⟩
  · intro a t d h
    unfold process
    rw [if_pos h]
  · intro a t d h
    unfold process
    split
    · rfl
    · simp only [h]
  · intro a t d c h1 h2
    unfold process
    split
    · rfl
    · simp only [h1, h2]
  · intro a t d c instants h1 h2 h3
    unfold process
    split
    · rfl
    · simp only [h1, h2, h3]
  · intro a t d c instants mask h1 h2 h3 h4
    unfold process
    split
    · rfl
    · simp only [h1, h2, h3]
      rw [if_pos h4]
  · intro stem suffix h heq
    have hd : (stem ++ "_filtered_16h.csv").data = (stem ++ suffix).data :=
      congrArg String.data heq
    rw [String.data_append, String.data_append] at hd
    have h2 : ("_filtered_16h.csv").data = suffix.data :=
      List.append_cancel_left hd
    rcases h with h | h
    · rw [h] at h2
      exact absurd h2 (by decide)
    · have h3 : ("_filtered_16h.csv").data.head? = suffix.data.head? := by
        rw [h2]
      rw [h] at h3
      exact absurd h3 (by decide)

/-- C10 witness: each fallback mode of the theorem at a concrete input —
no candidate column, a conversion failure, the naive-target comparison
failure, an empty window, an empty table — plus the name-collision freedom at
a concrete stem and suffix. -/
theorem C10_total_fallback_witness :
    process 1 [("Price", [Value.num 3])] ⟨20298, some 0⟩ = .originalFile
    ∧ process 1 [("date", [Value.badStr])] ⟨20298, some 0⟩ = .originalFile
    ∧ process 1 [("date", [Value.dt 0 none])] ⟨20298, none⟩ = .originalFile
    ∧ process 1 [("date", [Value.dt 0 (some 0)])] ⟨20298, some 0⟩ = .originalFile
    ∧ process 1 [("date", ([] : List Value))] ⟨20298, some 0⟩ = .originalFile
    ∧ processed_name "btc_20250729" ≠ "btc_20250729" ++ ".csv" :=
  ⟨C10_total_fallback.2.2.1 1 _ _ (by decide),
   C10_total_fallback.2.2.2.1 1 _ _ "date" (by decide) (by decide),
   C10_total_fallback.2.2.2.2.1 1 _ _ "date" [0 - 60000000000 * 0]
     (by decide) (by decide) (by decide),
   C10_total_fallback.2.2.2.2.2.1 1 _ _ "date" [0 - 60000000000 * 0]
     [inWindow (windowStartNs ⟨20298, some 0⟩ 0) (windowEndNs ⟨20298, some 0⟩ 0)
        (0 - 60000000000 * 0)]
     (by decide) (by decide) (by decide) (by decide),
   C10_total_fallback.2.1 1 _ _ (by decide),
   C10_total_fallback.2.2.2.2.2.2 "btc_20250729" ".csv" (Or.inr (by decide))⟩
